import Mathlib

/-!
Shallow embedding of the acquisitions service, covering the request-gating
(security) middleware, the application middleware stack, and the sign-in
controller.

The security middleware itself is present in the repository only through the
code excerpts quoted in the security-middleware analysis report
(src/unnamed/part_000); those excerpts, together with the line-by-line
findings of the report, determine the control flow embedded here:
  - each denial branch sends a response without a return statement
    (report Issue 1), so execution falls through to the following branches;
  - next() is called unconditionally at the end of the happy path
    (report Issue 2);
  - the shield and rate-limit branches test the method references
    decision.reason.isShield and decision.reason.isRateLimit as properties
    instead of calling them (report Issues 3 and 4); a method reference is a
    truthy value for every decision that carries a reason, so both guards
    hold for every denied decision;
  - the caller role is resolved as req.user?.role or the string guest when
    that chain is absent or falsy (report Issue 5), and the rate-limit table
    is admin 20, user 10, guest 5 requests per sliding 60-second window;
  - the catch handler logs through console.error, not the application
    logger (report Issue 6), then sends a 500 response; next() sits inside
    the try block, so a classifier failure never forwards the request.
The response bodies of the shield and rate-limit branches are not quoted in
the report (only their statuses, 403 and 429, are); their message strings
below follow the specification table and no theorem depends on them.

The application stack is embedded from src/src/app.js, and the sign-in
controller from the auth.controller.js source carried in src/WARP.md.
-/

namespace Acquisitions

/-- Denial reason carried by a denied classifier decision: bot detection,
shield, or rate limiting. -/
inductive Reason
  | bot
  | shield
  | rateLimit
  deriving DecidableEq, Repr

/-- Policy decision returned by the external classifier: allowed, or denied
with a reason. -/
inductive Decision
  | allowed
  | denied (reason : Reason)
  deriving DecidableEq, Repr

/-- Embedding of decision.isDenied(). -/
def Decision.isDenied : Decision → Bool
  | .allowed => false
  | .denied _ => true

/-- Embedding of the call decision.reason.isBot(): true exactly on a denied
decision whose reason is bot. The allowed case is unreachable in the source
(the guard short-circuits on isDenied()). -/
def Decision.reasonIsBot : Decision → Bool
  | .denied .bot => true
  | _ => false

/-- Embedding of the property access decision.reason.isShield in the source
(report Issue 3: the method is referenced, not called). A method reference is
truthy for every reason object, so this is true for every denied decision. -/
def Decision.reasonIsShieldTruthy : Decision → Bool
  | .denied _ => true
  | .allowed => false

/-- Embedding of the property access decision.reason.isRateLimit in the
source (report Issue 4): truthy for every denied decision. -/
def Decision.reasonIsRateLimitTruthy : Decision → Bool
  | .denied _ => true
  | .allowed => false

/-- The inbound request as consumed by the gate: the optional role reachable
through req.user?.role, and the request path. The middleware only reads the
request; it never writes to it. -/
structure Request where
  userRole : Option String
  path : String
  deriving DecidableEq, Repr

/-- A JSON response body of the shape sent by the gate: an error field and a
message field. -/
structure HttpBody where
  error : String
  message : String
  deriving DecidableEq, Repr

/-- An observable effect of one middleware run: sending a response with a
status and body, calling next() with the (shared, unmodified) request, a
console.error log, or an application-logger entry at warn or error severity.
The application-logger constructors exist to state the logging claims; the
embedded middleware never emits them, because the quoted source never calls
the Winston logger (report Issues 1 and 6). -/
inductive GateEffect
  | respond (status : Nat) (body : HttpBody)
  | next (req : Request)
  | logConsoleError
  | logAppWarn (message : String)
  | logAppError (message : String)
  deriving DecidableEq, Repr

/-- Embedding of const role = req.user?.role || (the string guest): an absent
chain or a falsy (empty) role string yields guest. -/
def resolveRole (req : Request) : String :=
  match req.userRole with
  | none => "guest"
  | some r => if r = "" then "guest" else r

/-- The role-based rate-limit table documented in the report: admin 20,
user 10, guest (and anything else) 5 requests per window. -/
def rateLimitFor (role : String) : Nat :=
  if role = "admin" then 20
  else if role = "user" then 10
  else 5

/-- Window length of every tier: sliding window, 1-minute interval. -/
def rateLimitWindowSeconds : Nat := 60

/-- Window algorithm marker. -/
inductive WindowMode
  | sliding
  | fixed
  deriving DecidableEq, Repr

/-- The report documents a sliding-window algorithm for all tiers. -/
def rateLimitWindowMode : WindowMode := .sliding

/-- Response sent by the bot branch, quoted verbatim in the report. -/
def botResponse : GateEffect :=
  .respond 403 ⟨"Forbidden", "Automated requests are not allowed"⟩

/-- Response sent by the shield branch; status 403 per the report, message
per the specification table. -/
def shieldResponse : GateEffect :=
  .respond 403 ⟨"Forbidden", "Request blocked by security policy"⟩

/-- Response sent by the rate-limit branch; status 429 per the report,
message per the specification table. -/
def rateLimitResponse : GateEffect :=
  .respond 429 ⟨"Too Many Requests", "Rate limit exceeded"⟩

/-- Response sent by the catch handler, quoted in the report (Issue 7). -/
def failureResponse : GateEffect :=
  .respond 500 ⟨"Internal Server Error", "Something went wrong with security middleware"⟩

/-- The security middleware as quoted and diagnosed in the analysis report.
The classifier is an opaque function from (role, limit) to an optional
decision; none models a thrown classifier failure, which transfers control
to the catch handler. In the source the role and limit are bound first and
passed to the classifier call; on a decision, the three denial branches run
in order with no early return (Issue 1), the shield and rate-limit guards
use truthy property accesses (Issues 3 and 4), and next() runs
unconditionally afterwards (Issue 2). On a failure, the catch handler logs
via console.error and sends the 500 response; next() is inside the try
block and is therefore skipped. -/
def securityMiddleware (req : Request) (classify : String → Nat → Option Decision) :
    List GateEffect :=
  match classify (resolveRole req) (rateLimitFor (resolveRole req)) with
  | none => [GateEffect.logConsoleError, failureResponse]
  | some decision =>
      (if decision.isDenied && decision.reasonIsBot then [botResponse] else [])
        ++ (if decision.isDenied && decision.reasonIsShieldTruthy then [shieldResponse] else [])
        ++ (if decision.isDenied && decision.reasonIsRateLimitTruthy then [rateLimitResponse] else [])
        ++ [GateEffect.next req]

/-- The responses sent during a run, in order, as (status, body) pairs. -/
def responsesOf (es : List GateEffect) : List (Nat × HttpBody) :=
  es.filterMap fun e =>
    match e with
    | .respond s b => some (s, b)
    | _ => none

/-- The requests forwarded to the next stage during a run, in order. -/
def forwardsOf (es : List GateEffect) : List Request :=
  es.filterMap fun e =>
    match e with
    | .next r => some r
    | _ => none

/-- Does an effect write to the application (Winston) logger? -/
def GateEffect.isAppLog : GateEffect → Bool
  | .logAppWarn _ => true
  | .logAppError _ => true
  | _ => false

/-- A fixed unauthenticated request used as concrete input. -/
def reqGuest : Request := ⟨none, "/api"⟩

/-- A classifier that always returns the given decision. -/
def clsOf (d : Decision) : String → Nat → Option Decision := fun _ _ => some d

/-- A classifier whose invocation always fails. -/
def clsFail : String → Nat → Option Decision := fun _ _ => none

/-- The application middleware and route stages of src/src/app.js, in
registration order. -/
inductive Stage
  | helmetStage
  | corsStage
  | jsonStage
  | cookieStage
  | urlencodedStage
  | morganStage
  | securityGate
  | rootRoute
  | healthRoute
  | apiRoute
  | authRoutes
  deriving DecidableEq, Repr

/-- The stack registered in src/src/app.js: helmet, cors, express.json,
cookieParser, express.urlencoded, morgan, securityMiddleware, then the
route handlers for /, /health, /api and /api/auth. -/
def appStack : List Stage :=
  [.helmetStage, .corsStage, .jsonStage, .cookieStage, .urlencodedStage, .morganStage,
   .securityGate, .rootRoute, .healthRoute, .apiRoute, .authRoutes]

/-- The route-handler stages of the application. -/
def routeStages : List Stage :=
  [.rootRoute, .healthRoute, .apiRoute, .authRoutes]

/-- A registered user record as returned by the auth service. -/
structure AuthUser where
  id : Nat
  name : String
  email : String
  role : String
  deriving DecidableEq, Repr

/-- The response body of the sign-in controller: a validation-failure body
with details, a success body carrying the user, or a bare error body of the
shape sent on authentication failure. -/
inductive SignInBody
  | validationFailed (details : String)
  | signedIn (u : AuthUser)
  | errorOnly (error : String)
  deriving DecidableEq, Repr

/-- Outcome of one controller run: a response with status and body, or the
error passed on to the framework error handler via next(e). -/
inductive ControllerResult
  | respond (status : Nat) (body : SignInBody)
  | forwardError (message : String)
  deriving DecidableEq, Repr

/-- The signIn controller from auth.controller.js (carried in src/WARP.md):
a failed schema validation yields 400 with formatted details; a successful
authentication yields 200 with the user; a thrown error with message
exactly the string (User not found) or (Invalid password) yields 401 with
the single body field error = Invalid email or password; any other thrown
error is passed to next. The success-path cookie and log side effects are
not observable in the response and are not modelled. -/
def signIn (validation : Except String Unit) (auth : Except String AuthUser) :
    ControllerResult :=
  match validation with
  | .error details => .respond 400 (.validationFailed details)
  | .ok _ =>
      match auth with
      | .ok u => .respond 200 (.signedIn u)
      | .error e =>
          if e = "User not found" || e = "Invalid password" then
            .respond 401 (.errorOnly "Invalid email or password")
          else
            .forwardError e

/-- C1: the claim states that exactly one of forwarding and a terminal
response occurs, and that a terminal response stops all further branch
evaluation. The code violates this: on a Denied(Bot) decision the gate
sends the bot response, then still evaluates and fires the shield and
rate-limit branches (truthy property guards, no returns), sending three
responses in total, and then still calls next(), forwarding the request.
Both outcomes occur on the same request. -/
theorem securityMiddleware_denied_responds_and_forwards :
    securityMiddleware reqGuest (clsOf (Decision.denied Reason.bot)) =
      [botResponse, shieldResponse, rateLimitResponse, GateEffect.next reqGuest] ∧
    (responsesOf (securityMiddleware reqGuest (clsOf (Decision.denied Reason.bot)))).length = 3 ∧
    forwardsOf (securityMiddleware reqGuest (clsOf (Decision.denied Reason.bot))) = [reqGuest] :=
  ⟨rfl, rfl, rfl⟩

/-- C2: on Denied(Bot) the first response sent is indeed 403 with the
Forbidden error and the bot message, but the claim also requires that the
request is not forwarded; the code calls next() afterwards (and attempts
two further responses), so the request is forwarded anyway. -/
theorem securityMiddleware_denied_bot_eval :
    (responsesOf (securityMiddleware reqGuest (clsOf (Decision.denied Reason.bot)))).head? =
      some (403, ⟨"Forbidden", "Automated requests are not allowed"⟩) ∧
    forwardsOf (securityMiddleware reqGuest (clsOf (Decision.denied Reason.bot))) = [reqGuest] :=
  ⟨rfl, rfl⟩

/-- C3: on Denied(Shield) the first response sent has status 403 as the
claim states, but the request is then forwarded by the unconditional
next(), violating the not-forwarded part of the claim. -/
theorem securityMiddleware_denied_shield_eval :
    (responsesOf (securityMiddleware reqGuest (clsOf (Decision.denied Reason.shield)))).map Prod.fst =
      [403, 429] ∧
    forwardsOf (securityMiddleware reqGuest (clsOf (Decision.denied Reason.shield))) = [reqGuest] :=
  ⟨rfl, rfl⟩

/-- C4: the claim requires a 429 response on Denied(RateLimit). Because the
shield guard reads isShield as a truthy property, the shield branch fires
first and the first response sent has status 403, not 429; the 429 response
is only the second one attempted, and the request is then forwarded by the
unconditional next(). -/
theorem securityMiddleware_denied_rateLimit_eval :
    responsesOf (securityMiddleware reqGuest (clsOf (Decision.denied Reason.rateLimit))) =
      [(403, ⟨"Forbidden", "Request blocked by security policy"⟩),
       (429, ⟨"Too Many Requests", "Rate limit exceeded"⟩)] ∧
    forwardsOf (securityMiddleware reqGuest (clsOf (Decision.denied Reason.rateLimit))) = [reqGuest] :=
  ⟨rfl, rfl⟩

/-- C5: when the classifier allows the request, no denial branch fires and
the run consists of exactly one effect, next() with the original request
unmodified: no response is sent by the gate. -/
theorem securityMiddleware_allowed_forwards_unmodified (req : Request)
    (classify : String → Nat → Option Decision)
    (h : classify (resolveRole req) (rateLimitFor (resolveRole req)) = some Decision.allowed) :
    securityMiddleware req classify = [GateEffect.next req] := by
  unfold securityMiddleware
  rw [h]
  rfl

/-- Witness for C5 at a concrete request and classifier. -/
theorem securityMiddleware_allowed_witness :
    clsOf Decision.allowed (resolveRole reqGuest) (rateLimitFor (resolveRole reqGuest)) =
      some Decision.allowed ∧
    securityMiddleware reqGuest (clsOf Decision.allowed) = [GateEffect.next reqGuest] :=
  ⟨rfl, securityMiddleware_allowed_forwards_unmodified reqGuest (clsOf Decision.allowed) rfl⟩

/-- C6: when the classifier invocation itself fails, the catch handler logs
and sends the 500 security-middleware-failure response; next() sits inside
the try block, so the request is never forwarded (fail-closed). The failure
response is moreover distinct from anything a Denied policy decision
produces: no denied run contains it. -/
theorem securityMiddleware_failure_fail_closed (req : Request)
    (classify : String → Nat → Option Decision)
    (h : classify (resolveRole req) (rateLimitFor (resolveRole req)) = none) :
    securityMiddleware req classify = [GateEffect.logConsoleError, failureResponse] ∧
    forwardsOf (securityMiddleware req classify) = [] ∧
    ∀ r : Reason, failureResponse ∉ securityMiddleware req (clsOf (Decision.denied r)) := by
  refine ⟨?_, ?_, ?_⟩
  · unfold securityMiddleware
    rw [h]
  · unfold securityMiddleware
    rw [h]
    rfl
  · intro r
    cases r <;>
      simp [securityMiddleware, clsOf, failureResponse, botResponse, shieldResponse,
        rateLimitResponse, Decision.isDenied, Decision.reasonIsBot,
        Decision.reasonIsShieldTruthy, Decision.reasonIsRateLimitTruthy]

/-- Witness for C6 at a concrete request and failing classifier. -/
theorem securityMiddleware_failure_witness :
    clsFail (resolveRole reqGuest) (rateLimitFor (resolveRole reqGuest)) = none ∧
    securityMiddleware reqGuest clsFail = [GateEffect.logConsoleError, failureResponse] :=
  ⟨rfl, (securityMiddleware_failure_fail_closed reqGuest clsFail rfl).1⟩

/-- C7: role resolution reads the role from the authenticated identity when
one is present and yields guest otherwise, and the tier table is admin 20,
user 10, guest 5 requests per sliding 60-second window. -/
theorem resolveRole_and_tier_table (p : String) (role : String)
    (h : role = "admin" ∨ role = "user" ∨ role = "guest") :
    resolveRole ⟨none, p⟩ = "guest" ∧
    resolveRole ⟨some role, p⟩ = role ∧
    rateLimitFor "admin" = 20 ∧
    rateLimitFor "user" = 10 ∧
    rateLimitFor "guest" = 5 ∧
    rateLimitWindowSeconds = 60 ∧
    rateLimitWindowMode = WindowMode.sliding := by
  refine ⟨rfl, ?_, rfl, rfl, rfl, rfl, rfl⟩
  rcases h with h | h | h <;> subst h <;> rfl

/-- Witness for C7 at a concrete path and role. -/
theorem resolveRole_and_tier_table_witness :
    ("admin" = "admin" ∨ "admin" = "user" ∨ "admin" = "guest") ∧
    resolveRole ⟨some "admin", "/api"⟩ = "admin" :=
  ⟨Or.inl rfl, (resolveRole_and_tier_table "/api" "admin" (Or.inl rfl)).2.1⟩

/-- C8: in the stack registered by src/src/app.js the security gate appears
exactly once, and it appears strictly before every route-handler stage,
including the root and health-check routes, so each request traverses the
gate exactly once before reaching any route handler. -/
theorem securityGate_registered_once_before_routes :
    appStack.count Stage.securityGate = 1 ∧
    ∀ r ∈ routeStages,
      Stage.securityGate ∈ appStack.takeWhile (fun s => s ≠ r) := by
  decide

/-- C9: the claim requires each policy denial to be logged at warn severity
and each classifier failure at error severity through the application
logger. The code emits no application-logger entry at all on a Denied(Bot)
run (the bot branch has no log call, report Issue 1), and on a classifier
failure it logs through console.error instead of the application logger
(report Issue 6). -/
theorem securityMiddleware_logging_eval :
    (securityMiddleware reqGuest (clsOf (Decision.denied Reason.bot))).all
      (fun e => !e.isAppLog) = true ∧
    GateEffect.logConsoleError ∈ securityMiddleware reqGuest clsFail ∧
    (securityMiddleware reqGuest clsFail).all (fun e => !e.isAppLog) = true := by
  refine ⟨rfl, ?_, rfl⟩
  simp [securityMiddleware, clsFail]

/-- C10: for a sign-in request that passes validation, the controller maps
the thrown errors for a missing user and for a wrong password to the same
response, HTTP 401 with the single body field error = Invalid email or
password, so the two failure causes are indistinguishable to the caller. -/
theorem signIn_auth_failures_indistinguishable :
    signIn (Except.ok ()) (Except.error "User not found") =
      ControllerResult.respond 401 (SignInBody.errorOnly "Invalid email or password") ∧
    signIn (Except.ok ()) (Except.error "Invalid password") =
      ControllerResult.respond 401 (SignInBody.errorOnly "Invalid email or password") ∧
    signIn (Except.ok ()) (Except.error "User not found") =
      signIn (Except.ok ()) (Except.error "Invalid password") :=
  ⟨rfl, rfl, rfl⟩

end Acquisitions
